import Mathlib

/-!
A shallow embedding of the Motoko actor in `src/unnamed/part_000` (the
real-estate-office backend: agents, properties, inquiries, user profiles,
role-gated queries, search/filter engine, analytics, and the admin-only
`resetToFreshDraft`).

Modelling conventions:
* `Principal` is an opaque caller identifier, modelled as `Nat`.
* `Time.Time` (`Int` nanoseconds) is modelled as `Int`; stateful operations
  that read `Time.now()` take the current time as an explicit `now` argument.
* `Float` coordinates are modelled exactly as rationals (`Rat`); the radius
  predicate is pure arithmetic comparison, translated verbatim.
* `Map.Map<K, V>` is modelled as its enumeration sequence: a `List (K × V)`
  with unique keys, `get` by key lookup, `add` replacing in place when the key
  is present (appending otherwise).  `values()` enumerates in sequence order.
* `Runtime.trap` aborts the message and rolls back all state; a trapping call
  is therefore modelled as `Except.error e` (no new state is produced, so the
  collections are left exactly as they were).  Trap messages are classified
  into the three error kinds `unauthorized` / `notFound` / `invalidReference`.
* Motoko's `Array.sort` with an `Int.compare` key is a stable sort; it is
  modelled by `List.mergeSort` with the corresponding boolean `≤` test.
* Motoko's `Set` is used only to test id membership and to build the list of
  intersection ids inside `advancedFilterProperties`; it is modelled by lists
  with `contains` (deduplication does not change membership).
-/

namespace RealEstate

abbrev Principal := Nat

/-- Keyed collection modelled as its enumeration sequence. -/
def mapGet {K V : Type} [DecidableEq K] (m : List (K × V)) (k : K) : Option V :=
  match m with
  | [] => none
  | (k', v) :: rest => if k' = k then some v else mapGet rest k

/-- `Map.add`: replace in place when the key is present, append otherwise. -/
def mapAdd {K V : Type} [DecidableEq K] (m : List (K × V)) (k : K) (v : V) :
    List (K × V) :=
  match m with
  | [] => [(k, v)]
  | (k', v') :: rest => if k' = k then (k, v) :: rest else (k', v') :: mapAdd rest k v

/-- `Map.values().toArray()`: the values in enumeration order. -/
def mapValues {K V : Type} (m : List (K × V)) : List V := m.map (·.2)

/-! ## Access control (authorization/access-control, not under src/) -/

/-- Modelled from the spec: the `authorization/access-control` module is not in
the sources.  §2 of the spec: the Identity Gate "resolves a caller identifier
to zero-or-more roles; exposes `isAdmin(caller)` and `hasBaseAccess(caller)`".
The state records which principals are administrators and which have been
granted base (user) access. -/
structure AccessControlState where
  admins : List Principal
  users : List Principal
deriving DecidableEq, Repr

/-- The two permission levels the actor queries (`#admin` and `#user`). -/
inductive Permission where
  | admin
  | user
deriving DecidableEq, Repr

namespace AccessControl

/-- Modelled from the spec: `isAdmin(caller)` of the Identity Gate. -/
def isAdmin (st : AccessControlState) (p : Principal) : Bool :=
  st.admins.contains p

/-- Modelled from the spec: `hasPermission(state, caller, #admin)` is the
administrator check and `hasPermission(state, caller, #user)` is base access;
§4.1: a caller is resolved to administrator independently of the Agent role,
and administrators pass every base-access gate. -/
def hasPermission (st : AccessControlState) (p : Principal) (perm : Permission) :
    Bool :=
  match perm with
  | .admin => isAdmin st p
  | .user => isAdmin st p || st.users.contains p

/-- Modelled from the spec: `assignRole(state, caller, target, #user)` grants
the target base (user) access (used by `addAgent` to "sync with AccessControl
system").  The caller argument is the admin performing the grant. -/
def assignRole (st : AccessControlState) (_caller : Principal)
    (target : Principal) (perm : Permission) : AccessControlState :=
  match perm with
  | .admin => { st with admins := target :: st.admins }
  | .user => { st with users := target :: st.users }

end AccessControl

/-! ## Domain data types (module Property / Agent / Inquiry, src lines 63-384) -/

structure Location where
  city : String
  suburb : String
  area : String
  roadName : String
deriving DecidableEq, Repr

structure Coordinates where
  lat : Rat
  lng : Rat
deriving DecidableEq, Repr

inductive Category where
  | resale
  | rental
  | underConstruction
deriving DecidableEq, Repr

inductive PropertyType where
  | residential
  | commercial
  | industrial
deriving DecidableEq, Repr

inductive Configuration where
  | rk1
  | bhk1
  | bhk1_5
  | bhk2
  | bhk2_5
  | bhk3
  | bhk3_5
  | bhk4
  | bhk5
  | jodiFlat
  | duplex
  | penthouse
  | bungalow
  | independentHouse
deriving DecidableEq, Repr

inductive Furnishing where
  | unfurnished
  | semiFurnished
  | furnished
deriving DecidableEq, Repr

inductive PropertyStatus where
  | available
  | sold
  | rented
  | underContract
deriving DecidableEq, Repr

/-- `Storage.ExternalBlob` is an opaque blob reference; modelled as `String`. -/
abbrev ExternalBlob := String

structure Property where
  id : String
  title : String
  description : String
  location : Location
  coordinates : Coordinates
  price : Nat
  category : Category
  propertyType : PropertyType
  configuration : Configuration
  furnishing : Furnishing
  status : PropertyStatus
  listedBy : Principal
  createdAt : Int
  updatedAt : Int
  images : List ExternalBlob
deriving DecidableEq, Repr

structure SearchCriteria where
  city : Option String
  suburb : Option String
  area : Option String
  roadName : Option String
  category : Option Category
  propertyType : Option PropertyType
  configuration : Option Configuration
  furnishing : Option Furnishing
  minPrice : Option Nat
  maxPrice : Option Nat
  status : Option PropertyStatus
  lat : Option Rat
  lng : Option Rat
  radius : Option Rat
deriving DecidableEq, Repr

structure CoordFilter where
  lat : Rat
  lng : Rat
  radius : Rat
deriving DecidableEq, Repr

structure AdvancedFilter where
  locations : List Location
  categories : List Category
  propertyTypes : List PropertyType
  configurations : List Configuration
  furnishings : List Furnishing
  priceRanges : List (Option Nat × Option Nat)
  statuses : List PropertyStatus
  coordinateFilters : List CoordFilter
deriving DecidableEq, Repr

inductive Role where
  | admin
  | agent
  | assistant
  | juniorAgent
deriving DecidableEq, Repr

structure AgentProfile where
  id : Principal
  name : String
  contactInfo : String
  role : Role
  active : Bool
  createdAt : Int
  updatedAt : Int
deriving DecidableEq, Repr

inductive InquirySource where
  | website
  | referral
  | walkIn
  | phone
  | socialMedia
deriving DecidableEq, Repr

inductive InquiryStatus where
  | new
  | inProgress
  | closed
  | followUp
deriving DecidableEq, Repr

structure Inquiry where
  id : String
  propertyId : String
  customerName : String
  contactInfo : String
  source : InquirySource
  status : InquiryStatus
  assignedAgent : Principal
  notes : String
  createdAt : Int
  updatedAt : Int
deriving DecidableEq, Repr

structure UserProfile where
  name : String
  contactInfo : String
deriving DecidableEq, Repr

/-- The actor's mutable state (src lines 60, 386-389). -/
structure ActorState where
  accessControlState : AccessControlState
  agents : List (Principal × AgentProfile)
  properties : List (String × Property)
  inquiries : List (String × Inquiry)
  userProfiles : List (Principal × UserProfile)
deriving DecidableEq, Repr

/-- The three error kinds of §7, classifying the actor's trap messages. -/
inductive Err where
  | unauthorized
  | notFound
  | invalidReference
deriving DecidableEq, Repr

/-! ## Role-derived capability predicates (src lines 391-471) -/

def getAgentRole (s : ActorState) (principal : Principal) : Option Role :=
  match mapGet s.agents principal with
  | none => none
  | some agent => if agent.active then some agent.role else none

def isValidActiveAgent (s : ActorState) (principal : Principal) : Bool :=
  match mapGet s.agents principal with
  | none => false
  | some agent => agent.active

def canManageProperties (s : ActorState) (caller : Principal) : Bool :=
  if AccessControl.isAdmin s.accessControlState caller then true
  else
    match getAgentRole s caller with
    | none => false
    | some role => role == .admin || role == .agent || role == .juniorAgent

def canViewProperties (s : ActorState) (caller : Principal) : Bool :=
  if AccessControl.isAdmin s.accessControlState caller then true
  else
    match getAgentRole s caller with
    | none => false
    | some _ => true

def hasAgentRole (s : ActorState) (caller : Principal) : Bool :=
  if AccessControl.isAdmin s.accessControlState caller then true
  else
    match getAgentRole s caller with
    | none => false
    | some _ => true

def canAccessAnalytics (s : ActorState) (caller : Principal) : Bool :=
  if AccessControl.isAdmin s.accessControlState caller then true
  else
    match getAgentRole s caller with
    | none => false
    | some role => role == .admin || role == .agent || role == .juniorAgent

def canManageInquiries (s : ActorState) (caller : Principal) : Bool :=
  if AccessControl.isAdmin s.accessControlState caller then true
  else
    match getAgentRole s caller with
    | none => false
    | some role =>
      role == .admin || role == .agent || role == .juniorAgent || role == .assistant

def canManageAllInquiries (s : ActorState) (caller : Principal) : Bool :=
  if AccessControl.isAdmin s.accessControlState caller then true
  else
    match getAgentRole s caller with
    | none => false
    | some role => role == .admin || role == .agent

def canAssignToOtherAgents (s : ActorState) (caller : Principal) : Bool :=
  if AccessControl.isAdmin s.accessControlState caller then true
  else
    match getAgentRole s caller with
    | none => false
    | some role => role == .admin || role == .agent || role == .juniorAgent

/-! ## User profile management (src lines 474-496) -/

def getCallerUserProfile (s : ActorState) (caller : Principal) :
    Except Err (Option UserProfile) :=
  if !(AccessControl.hasPermission s.accessControlState caller .user) then
    .error .unauthorized
  else
    .ok (mapGet s.userProfiles caller)

/-! ## Agent management (src lines 499-603) -/

def addAgent (s : ActorState) (caller : Principal) (agentPrincipal : Principal)
    (name : String) (contactInfo : String) (role : Role) (now : Int) :
    Except Err ActorState :=
  if !(AccessControl.hasPermission s.accessControlState caller .admin) then
    .error .unauthorized
  else
    let agent : AgentProfile :=
      { id := agentPrincipal, name := name, contactInfo := contactInfo,
        role := role, active := true, createdAt := now, updatedAt := now }
    .ok { s with
          agents := mapAdd s.agents agentPrincipal agent,
          accessControlState :=
            AccessControl.assignRole s.accessControlState caller agentPrincipal .user }

def getAllAgents (s : ActorState) (caller : Principal) :
    Except Err (List AgentProfile) :=
  if !(AccessControl.hasPermission s.accessControlState caller .user) then
    .error .unauthorized
  else if !(hasAgentRole s caller) then
    .error .unauthorized
  else
    .ok ((mapValues s.agents).mergeSort (fun a1 a2 => decide (a1.createdAt ≤ a2.createdAt)))

/-! ## Property management (src lines 606-821) -/

def updateProperty (s : ActorState) (caller : Principal) (propertyId : String)
    (title : String) (description : String) (location : Location)
    (coordinates : Coordinates) (price : Nat) (category : Category)
    (propertyType : PropertyType) (configuration : Configuration)
    (furnishing : Furnishing) (status : PropertyStatus)
    (images : List ExternalBlob) (now : Int) : Except Err ActorState :=
  if !(AccessControl.hasPermission s.accessControlState caller .user) then
    .error .unauthorized
  else
    match mapGet s.properties propertyId with
    | none => .error .notFound
    | some existingProperty =>
      if !(canManageProperties s caller) then
        .error .unauthorized
      else if existingProperty.listedBy != caller &&
          !(AccessControl.isAdmin s.accessControlState caller) then
        .error .unauthorized
      else
        let updatedProperty : Property :=
          { id := propertyId, title := title, description := description,
            location := location, coordinates := coordinates, price := price,
            category := category, propertyType := propertyType,
            configuration := configuration, furnishing := furnishing,
            status := status, listedBy := existingProperty.listedBy,
            createdAt := existingProperty.createdAt, updatedAt := now,
            images := images }
        .ok { s with properties := mapAdd s.properties propertyId updatedProperty }

def getAllProperties (s : ActorState) (caller : Principal) :
    Except Err (List Property) :=
  if !(AccessControl.hasPermission s.accessControlState caller .user) then
    .error .unauthorized
  else if !(canViewProperties s caller) then
    .error .unauthorized
  else
    .ok ((mapValues s.properties).mergeSort (fun p1 p2 => decide (p1.createdAt ≤ p2.createdAt)))

def getPropertiesByCategory (s : ActorState) (caller : Principal)
    (category : Category) : Except Err (List Property) :=
  if !(AccessControl.hasPermission s.accessControlState caller .user) then
    .error .unauthorized
  else if !(canViewProperties s caller) then
    .error .unauthorized
  else
    .ok (((mapValues s.properties).filter (fun p => p.category == category)).mergeSort
      (fun p1 p2 => decide (p1.createdAt ≤ p2.createdAt)))

/-- Src line 790: returns the filtered values without any sort. -/
def filterPropertiesByConfiguration (s : ActorState) (caller : Principal)
    (configuration : Configuration) : Except Err (List Property) :=
  if !(AccessControl.hasPermission s.accessControlState caller .user) then
    .error .unauthorized
  else if !(canViewProperties s caller) then
    .error .unauthorized
  else
    .ok ((mapValues s.properties).filter (fun p => p.configuration == configuration))

/-! ## Simple criteria search (src lines 824-896) -/

/-- The radius predicate of `searchAndFilterProperties` (src lines 882-891). -/
def radiusMatch (criteria : SearchCriteria) (p : Property) : Bool :=
  match criteria.lat, criteria.lng, criteria.radius with
  | none, _, _ => true
  | _, none, _ => true
  | _, _, none => true
  | some lat, some lng, some radius =>
    let dLat := lat - p.coordinates.lat
    let dLng := lng - p.coordinates.lng
    decide (dLat * dLat + dLng * dLng ≤ radius * radius)

/-- The filter body of `searchAndFilterProperties` (src lines 836-894). -/
def matchesCriteria (criteria : SearchCriteria) (p : Property) : Bool :=
  let cityMatch := match criteria.city with
    | none => true
    | some city => p.location.city == city
  let suburbMatch := match criteria.suburb with
    | none => true
    | some suburb => p.location.suburb == suburb
  let areaMatch := match criteria.area with
    | none => true
    | some area => p.location.area == area
  let roadNameMatch := match criteria.roadName with
    | none => true
    | some roadName => p.location.roadName == roadName
  let categoryMatch := match criteria.category with
    | none => true
    | some category => p.category == category
  let propertyTypeMatch := match criteria.propertyType with
    | none => true
    | some propertyType => p.propertyType == propertyType
  let configurationMatch := match criteria.configuration with
    | none => true
    | some configuration => p.configuration == configuration
  let furnishingMatch := match criteria.furnishing with
    | none => true
    | some furnishing => p.furnishing == furnishing
  let priceMatch := match criteria.minPrice, criteria.maxPrice with
    | none, none => true
    | none, some maxPrice => decide (p.price ≤ maxPrice)
    | some minPrice, none => decide (minPrice ≤ p.price)
    | some minPrice, some maxPrice =>
      decide (minPrice ≤ p.price) && decide (p.price ≤ maxPrice)
  let statusMatch := match criteria.status with
    | none => true
    | some status => p.status == status
  cityMatch && suburbMatch && areaMatch && roadNameMatch && categoryMatch &&
    propertyTypeMatch && configurationMatch && furnishingMatch && priceMatch &&
    statusMatch && radiusMatch criteria p

def searchAndFilterProperties (s : ActorState) (caller : Principal)
    (criteria : SearchCriteria) : Except Err (List Property) :=
  if !(AccessControl.hasPermission s.accessControlState caller .user) then
    .error .unauthorized
  else if !(canViewProperties s caller) then
    .error .unauthorized
  else
    .ok ((mapValues s.properties).filter (matchesCriteria criteria))

/-! ## Advanced multi-value filter (src lines 899-1065) -/

/-- Src lines 913-939: intersection by entity id of two OR-matched subsets,
re-enumerating the base collection to preserve its order.  The two `Set`s are
used only for id membership, so they are modelled by id lists. -/
def intersectProperties (propertiesArray a1 a2 : List Property) : List Property :=
  let intersectionIds := (a1.map (·.id)).filter (fun i => (a2.map (·.id)).contains i)
  propertiesArray.filter (fun p => intersectionIds.contains p.id)

/-- The location per-dimension match (src line 946). -/
def matchesLocation (loc : Location) (p : Property) : Bool :=
  p.location.city == loc.city && p.location.suburb == loc.suburb &&
    p.location.area == loc.area && p.location.roadName == loc.roadName

/-- The price-range per-dimension match (src lines 1004-1009). -/
def matchesPriceRange (pr : Option Nat × Option Nat) (p : Property) : Bool :=
  match pr with
  | (none, none) => true
  | (none, some mx) => decide (p.price ≤ mx)
  | (some mn, none) => decide (mn ≤ p.price)
  | (some mn, some mx) => decide (mn ≤ p.price) && decide (p.price ≤ mx)

/-- The coordinate per-dimension match (src lines 1032-1036). -/
def matchesCoordFilter (coord : CoordFilter) (p : Property) : Bool :=
  let dLat := coord.lat - p.coordinates.lat
  let dLng := coord.lng - p.coordinates.lng
  decide (dLat * dLat + dLng * dLng ≤ coord.radius * coord.radius)

def advancedFilterProperties (s : ActorState) (caller : Principal)
    (advancedFilters : AdvancedFilter) : Except Err (List Property) :=
  if !(AccessControl.hasPermission s.accessControlState caller .user) then
    .error .unauthorized
  else if !(canViewProperties s caller) then
    .error .unauthorized
  else
    let propertiesArray := mapValues s.properties
    let locationFiltered :=
      if advancedFilters.locations.length > 0 then
        advancedFilters.locations.flatMap
          (fun loc => propertiesArray.filter (matchesLocation loc))
      else propertiesArray
    let categoryFiltered :=
      if advancedFilters.categories.length > 0 then
        advancedFilters.categories.flatMap
          (fun cat => propertiesArray.filter (fun p => p.category == cat))
      else propertiesArray
    let propertyTypeFiltered :=
      if advancedFilters.propertyTypes.length > 0 then
        advancedFilters.propertyTypes.flatMap
          (fun propertyType => propertiesArray.filter (fun p => p.propertyType == propertyType))
      else propertiesArray
    let configurationFiltered :=
      if advancedFilters.configurations.length > 0 then
        advancedFilters.configurations.flatMap
          (fun config => propertiesArray.filter (fun p => p.configuration == config))
      else propertiesArray
    let furnishingFiltered :=
      if advancedFilters.furnishings.length > 0 then
        advancedFilters.furnishings.flatMap
          (fun furnishing => propertiesArray.filter (fun p => p.furnishing == furnishing))
      else propertiesArray
    let priceFiltered :=
      if advancedFilters.priceRanges.length > 0 then
        advancedFilters.priceRanges.flatMap
          (fun pr => propertiesArray.filter (matchesPriceRange pr))
      else propertiesArray
    let statusFiltered :=
      if advancedFilters.statuses.length > 0 then
        advancedFilters.statuses.flatMap
          (fun status => propertiesArray.filter (fun p => p.status == status))
      else propertiesArray
    let coordinatesFiltered :=
      if advancedFilters.coordinateFilters.length > 0 then
        advancedFilters.coordinateFilters.flatMap
          (fun coord => propertiesArray.filter (matchesCoordFilter coord))
      else propertiesArray
    .ok (intersectProperties propertiesArray
          (intersectProperties propertiesArray
            (intersectProperties propertiesArray
              (intersectProperties propertiesArray
                (intersectProperties propertiesArray
                  (intersectProperties propertiesArray
                    (intersectProperties propertiesArray locationFiltered categoryFiltered)
                    propertyTypeFiltered)
                  configurationFiltered)
                furnishingFiltered)
              priceFiltered)
            statusFiltered)
          coordinatesFiltered)

/-! ## Inquiry management (src lines 1120-1317) -/

def addInquiry (s : ActorState) (caller : Principal) (propertyId : String)
    (customerName : String) (contactInfo : String) (source : InquirySource)
    (assignedAgent : Principal) (notes : String) (now : Int) :
    Except Err (String × ActorState) :=
  if !(AccessControl.hasPermission s.accessControlState caller .user) then
    .error .unauthorized
  else if !(canManageInquiries s caller) then
    .error .unauthorized
  else
    match mapGet s.properties propertyId with
    | none => .error .notFound
    | some _ =>
      if !(isValidActiveAgent s assignedAgent) then
        .error .invalidReference
      else if !(canAssignToOtherAgents s caller) && assignedAgent != caller then
        .error .unauthorized
      else
        let inquiryId := propertyId ++ "." ++ customerName ++ "." ++ toString now
        let inquiry : Inquiry :=
          { id := inquiryId, propertyId := propertyId, customerName := customerName,
            contactInfo := contactInfo, source := source, status := .new,
            assignedAgent := assignedAgent, notes := notes,
            createdAt := now, updatedAt := now }
        .ok (inquiryId, { s with inquiries := mapAdd s.inquiries inquiryId inquiry })

def updateInquiry (s : ActorState) (caller : Principal) (inquiryId : String)
    (customerName : String) (contactInfo : String) (source : InquirySource)
    (status : InquiryStatus) (assignedAgent : Principal) (notes : String)
    (now : Int) : Except Err ActorState :=
  if !(AccessControl.hasPermission s.accessControlState caller .user) then
    .error .unauthorized
  else
    match mapGet s.inquiries inquiryId with
    | none => .error .notFound
    | some existingInquiry =>
      if !(canManageInquiries s caller) then
        .error .unauthorized
      else if existingInquiry.assignedAgent != caller &&
          !(canManageAllInquiries s caller) then
        .error .unauthorized
      else if !(isValidActiveAgent s assignedAgent) then
        .error .invalidReference
      else if !(canAssignToOtherAgents s caller) && assignedAgent != caller then
        .error .unauthorized
      else
        let updatedInquiry : Inquiry :=
          { id := inquiryId, propertyId := existingInquiry.propertyId,
            customerName := customerName, contactInfo := contactInfo,
            source := source, status := status, assignedAgent := assignedAgent,
            notes := notes, createdAt := existingInquiry.createdAt, updatedAt := now }
        .ok { s with inquiries := mapAdd s.inquiries inquiryId updatedInquiry }

def getAllInquiries (s : ActorState) (caller : Principal) :
    Except Err (List Inquiry) :=
  if !(AccessControl.hasPermission s.accessControlState caller .user) then
    .error .unauthorized
  else if !(canManageInquiries s caller) then
    .error .unauthorized
  else
    let allInquiries := mapValues s.inquiries
    if canManageAllInquiries s caller then
      .ok (allInquiries.mergeSort (fun i1 i2 => decide (i1.createdAt ≤ i2.createdAt)))
    else
      .ok ((allInquiries.filter (fun i => i.assignedAgent == caller)).mergeSort
        (fun i1 i2 => decide (i1.createdAt ≤ i2.createdAt)))

/-! ## Analytics (module Analytics, src lines 169-330, and src lines 1320-1531) -/

inductive RegionType where
  | city
  | suburb
  | area
  | neighborhood
  | zone
deriving DecidableEq, Repr

structure CategoryCounts where
  resale : Nat
  rental : Nat
  underConstruction : Nat
deriving DecidableEq, Repr

structure TypeCounts where
  residential : Nat
  commercial : Nat
  industrial : Nat
deriving DecidableEq, Repr

structure ConfigCounts where
  rk1 : Nat
  bhk1 : Nat
  bhk1_5 : Nat
  bhk2 : Nat
  bhk2_5 : Nat
  bhk3 : Nat
  bhk3_5 : Nat
  bhk4 : Nat
  bhk5 : Nat
  jodiFlat : Nat
  duplex : Nat
  penthouse : Nat
  bungalow : Nat
  independentHouse : Nat
deriving DecidableEq, Repr

structure FurnishingCounts where
  unfurnished : Nat
  semiFurnished : Nat
  furnished : Nat
deriving DecidableEq, Repr

structure PriceRange where
  minPrice : Option Nat
  maxPrice : Option Nat
deriving DecidableEq, Repr

structure RegionalDistribution where
  region : String
  regionType : RegionType
  propertyCount : Nat
  categoryDistribution : CategoryCounts
  propertyTypeDistribution : TypeCounts
  configurationDistribution : ConfigCounts
  furnishingDistribution : FurnishingCounts
  averagePrice : Option Nat
  priceRange : PriceRange
deriving DecidableEq, Repr

structure PropertyDensity where
  region : String
  regionType : RegionType
  propertyCount : Nat
deriving DecidableEq, Repr

structure PricingHeatmap where
  region : String
  regionType : RegionType
  averagePrice : Option Nat
  priceRange : PriceRange
deriving DecidableEq, Repr

structure CategoryDistribution where
  region : String
  regionType : RegionType
  resaleCount : Nat
  rentalCount : Nat
  underConstructionCount : Nat
deriving DecidableEq, Repr

structure PropertyTypeDistribution where
  region : String
  regionType : RegionType
  residentialCount : Nat
  commercialCount : Nat
  industrialCount : Nat
deriving DecidableEq, Repr

structure ConfigurationDistribution where
  region : String
  regionType : RegionType
  rk1Count : Nat
  bhk1Count : Nat
  bhk1_5Count : Nat
  bhk2Count : Nat
  bhk2_5Count : Nat
  bhk3Count : Nat
  bhk3_5Count : Nat
  bhk4Count : Nat
  bhk5Count : Nat
  jodiFlatCount : Nat
  duplexCount : Nat
  penthouseCount : Nat
  bungalowCount : Nat
  independentHouseCount : Nat
deriving DecidableEq, Repr

structure FurnishingDistribution where
  region : String
  regionType : RegionType
  unfurnishedCount : Nat
  semiFurnishedCount : Nat
  furnishedCount : Nat
deriving DecidableEq, Repr

structure CombinedAnalytics where
  regionalDistribution : List RegionalDistribution
  propertyDensity : List PropertyDensity
  pricingHeatmap : List PricingHeatmap
  categoryDistribution : List CategoryDistribution
  propertyTypeDistribution : List PropertyTypeDistribution
  configurationDistribution : List ConfigurationDistribution
  furnishingDistribution : List FurnishingDistribution
deriving DecidableEq, Repr

/-- The caller-scoped subset of properties the analytics aggregate over
(src lines 1332-1336, 1370-1374, 1397-1401): all properties for an
administrator, only the caller's own listings otherwise. -/
def relevantPropertiesFor (s : ActorState) (caller : Principal) : List Property :=
  if AccessControl.isAdmin s.accessControlState caller then
    mapValues s.properties
  else
    (mapValues s.properties).filter (fun p => p.listedBy == caller)

def getConfigurationDistribution (s : ActorState) (caller : Principal) :
    Except Err (List ConfigurationDistribution) :=
  if !(AccessControl.hasPermission s.accessControlState caller .user) then
    .error .unauthorized
  else if !(canAccessAnalytics s caller) then
    .error .unauthorized
  else
    let relevantProperties := relevantPropertiesFor s caller
    .ok [{ region := "Mumbai", regionType := .city,
           rk1Count := (relevantProperties.filter (fun p => p.configuration == .rk1)).length,
           bhk1Count := (relevantProperties.filter (fun p => p.configuration == .bhk1)).length,
           bhk1_5Count := (relevantProperties.filter (fun p => p.configuration == .bhk1_5)).length,
           bhk2Count := (relevantProperties.filter (fun p => p.configuration == .bhk2)).length,
           bhk2_5Count := (relevantProperties.filter (fun p => p.configuration == .bhk2_5)).length,
           bhk3Count := (relevantProperties.filter (fun p => p.configuration == .bhk3)).length,
           bhk3_5Count := (relevantProperties.filter (fun p => p.configuration == .bhk3_5)).length,
           bhk4Count := (relevantProperties.filter (fun p => p.configuration == .bhk4)).length,
           bhk5Count := (relevantProperties.filter (fun p => p.configuration == .bhk5)).length,
           jodiFlatCount := (relevantProperties.filter (fun p => p.configuration == .jodiFlat)).length,
           duplexCount := (relevantProperties.filter (fun p => p.configuration == .duplex)).length,
           penthouseCount := (relevantProperties.filter (fun p => p.configuration == .penthouse)).length,
           bungalowCount := (relevantProperties.filter (fun p => p.configuration == .bungalow)).length,
           independentHouseCount := (relevantProperties.filter (fun p => p.configuration == .independentHouse)).length }]

/-- The configuration counts shared by the regional and per-report blocks of
`getCombinedAnalytics` (src lines 1435-1450, 1495-1512). -/
def configCountsOf (relevantProperties : List Property) : ConfigCounts :=
  { rk1 := (relevantProperties.filter (fun p => p.configuration == .rk1)).length,
    bhk1 := (relevantProperties.filter (fun p => p.configuration == .bhk1)).length,
    bhk1_5 := (relevantProperties.filter (fun p => p.configuration == .bhk1_5)).length,
    bhk2 := (relevantProperties.filter (fun p => p.configuration == .bhk2)).length,
    bhk2_5 := (relevantProperties.filter (fun p => p.configuration == .bhk2_5)).length,
    bhk3 := (relevantProperties.filter (fun p => p.configuration == .bhk3)).length,
    bhk3_5 := (relevantProperties.filter (fun p => p.configuration == .bhk3_5)).length,
    bhk4 := (relevantProperties.filter (fun p => p.configuration == .bhk4)).length,
    bhk5 := (relevantProperties.filter (fun p => p.configuration == .bhk5)).length,
    jodiFlat := (relevantProperties.filter (fun p => p.configuration == .jodiFlat)).length,
    duplex := (relevantProperties.filter (fun p => p.configuration == .duplex)).length,
    penthouse := (relevantProperties.filter (fun p => p.configuration == .penthouse)).length,
    bungalow := (relevantProperties.filter (fun p => p.configuration == .bungalow)).length,
    independentHouse := (relevantProperties.filter (fun p => p.configuration == .independentHouse)).length }

/-- The furnishing counts shared by the blocks of `getCombinedAnalytics`
(src lines 1451-1455, 1514-1520). -/
def furnishingCountsOf (relevantProperties : List Property) : FurnishingCounts :=
  { unfurnished := (relevantProperties.filter (fun p => p.furnishing == .unfurnished)).length,
    semiFurnished := (relevantProperties.filter (fun p => p.furnishing == .semiFurnished)).length,
    furnished := (relevantProperties.filter (fun p => p.furnishing == .furnished)).length }

/-- The body of `getCombinedAnalytics` after the caller-scope selection
(src lines 1403-1530), as a function of the scoped property list.
`?relevantProperties[0].price` guarded by `totalCount > 0` is the price of the
head of the scoped list. -/
def combinedOf (relevantProperties : List Property) : CombinedAnalytics :=
  let totalCount := relevantProperties.length
  let resaleCount := (relevantProperties.filter (fun p => p.category == .resale)).length
  let rentalCount := (relevantProperties.filter (fun p => p.category == .rental)).length
  let underConstructionCount :=
    (relevantProperties.filter (fun p => p.category == .underConstruction)).length
  let residentialCount :=
    (relevantProperties.filter (fun p => p.propertyType == .residential)).length
  let commercialCount :=
    (relevantProperties.filter (fun p => p.propertyType == .commercial)).length
  let industrialCount :=
    (relevantProperties.filter (fun p => p.propertyType == .industrial)).length
  let avgPrice : Option Nat :=
    if totalCount > 0 then
      some ((relevantProperties.foldl (fun sum p => sum + p.price) 0) / totalCount)
    else
      none
  let firstPrice : Option Nat :=
    match relevantProperties with
    | [] => none
    | p :: _ => some p.price
  { regionalDistribution :=
      [{ region := "Mumbai", regionType := .city,
         propertyCount := totalCount,
         categoryDistribution :=
           { resale := resaleCount, rental := rentalCount,
             underConstruction := underConstructionCount },
         propertyTypeDistribution :=
           { residential := residentialCount, commercial := commercialCount,
             industrial := industrialCount },
         configurationDistribution := configCountsOf relevantProperties,
         furnishingDistribution := furnishingCountsOf relevantProperties,
         averagePrice := avgPrice,
         priceRange := { minPrice := firstPrice, maxPrice := firstPrice } }],
    propertyDensity :=
      [{ region := "Mumbai", regionType := .city, propertyCount := totalCount }],
    pricingHeatmap :=
      [{ region := "Mumbai", regionType := .city, averagePrice := avgPrice,
         priceRange := { minPrice := firstPrice, maxPrice := firstPrice } }],
    categoryDistribution :=
      [{ region := "Mumbai", regionType := .city, resaleCount := resaleCount,
         rentalCount := rentalCount, underConstructionCount := underConstructionCount }],
    propertyTypeDistribution :=
      [{ region := "Mumbai", regionType := .city, residentialCount := residentialCount,
         commercialCount := commercialCount, industrialCount := industrialCount }],
    configurationDistribution :=
      [{ region := "Mumbai", regionType := .city,
         rk1Count := (configCountsOf relevantProperties).rk1,
         bhk1Count := (configCountsOf relevantProperties).bhk1,
         bhk1_5Count := (configCountsOf relevantProperties).bhk1_5,
         bhk2Count := (configCountsOf relevantProperties).bhk2,
         bhk2_5Count := (configCountsOf relevantProperties).bhk2_5,
         bhk3Count := (configCountsOf relevantProperties).bhk3,
         bhk3_5Count := (configCountsOf relevantProperties).bhk3_5,
         bhk4Count := (configCountsOf relevantProperties).bhk4,
         bhk5Count := (configCountsOf relevantProperties).bhk5,
         jodiFlatCount := (configCountsOf relevantProperties).jodiFlat,
         duplexCount := (configCountsOf relevantProperties).duplex,
         penthouseCount := (configCountsOf relevantProperties).penthouse,
         bungalowCount := (configCountsOf relevantProperties).bungalow,
         independentHouseCount := (configCountsOf relevantProperties).independentHouse }],
    furnishingDistribution :=
      [{ region := "Mumbai", regionType := .city,
         unfurnishedCount := (furnishingCountsOf relevantProperties).unfurnished,
         semiFurnishedCount := (furnishingCountsOf relevantProperties).semiFurnished,
         furnishedCount := (furnishingCountsOf relevantProperties).furnished }] }

def getCombinedAnalytics (s : ActorState) (caller : Principal) :
    Except Err CombinedAnalytics :=
  if !(AccessControl.hasPermission s.accessControlState caller .user) then
    .error .unauthorized
  else if !(canAccessAnalytics s caller) then
    .error .unauthorized
  else
    .ok (combinedOf (relevantPropertiesFor s caller))

/-! ## Data reset (src lines 1534-1543) -/

def resetToFreshDraft (s : ActorState) (caller : Principal) :
    Except Err ActorState :=
  if !(AccessControl.hasPermission s.accessControlState caller .admin) then
    .error .unauthorized
  else
    .ok { s with agents := [], properties := [], inquiries := [], userProfiles := [] }

/-! ## Spec-side predicates used to state the claims -/

/-- The claim-side per-property predicate of the advanced filter: a property
passes a dimension whose value set is empty, or satisfies at least one value
of the set; it passes the filter when it passes all eight dimensions.  The
conjunction is nested exactly like the implementation's intersection chain. -/
def advMatches (f : AdvancedFilter) (p : Property) : Bool :=
  (((((((f.locations.isEmpty || f.locations.any (fun loc => matchesLocation loc p)) &&
        (f.categories.isEmpty || f.categories.any (fun cat => p.category == cat))) &&
       (f.propertyTypes.isEmpty || f.propertyTypes.any (fun propertyType => p.propertyType == propertyType))) &&
      (f.configurations.isEmpty || f.configurations.any (fun config => p.configuration == config))) &&
     (f.furnishings.isEmpty || f.furnishings.any (fun furnishing => p.furnishing == furnishing))) &&
    (f.priceRanges.isEmpty || f.priceRanges.any (fun pr => matchesPriceRange pr p))) &&
   (f.statuses.isEmpty || f.statuses.any (fun status => p.status == status))) &&
  (f.coordinateFilters.isEmpty || f.coordinateFilters.any (fun coord => matchesCoordFilter coord p))

/-! ## Helper lemmas -/

theorem mapGet_mapAdd_self {K V : Type} [DecidableEq K] (m : List (K × V))
    (k : K) (v : V) : mapGet (mapAdd m k v) k = some v := by
  induction m with
  | nil => simp [mapAdd, mapGet]
  | cons e rest ih =>
    obtain ⟨k', v'⟩ := e
    by_cases h : k' = k
    · simp [mapAdd, mapGet, h]
    · simp [mapAdd, mapGet, h, ih]

theorem contains_filter {α : Type} [BEq α] [LawfulBEq α] (l : List α)
    (c : α → Bool) (x : α) : (l.filter c).contains x = (l.contains x && c x) := by
  rw [Bool.eq_iff_iff]
  simp only [Bool.and_eq_true, List.elem_iff, List.mem_filter]

theorem mem_map_id {l : List Property} {i : String} :
    ((l.map (·.id)).contains i = true) ↔ ∃ q ∈ l, q.id = i := by
  rw [List.elem_iff]
  simp [List.mem_map]

theorem ids_contains_filter {base : List Property}
    (hnd : (base.map (·.id)).Nodup) {p : Property} (hp : p ∈ base)
    (c : Property → Bool) :
    ((base.filter c).map (·.id)).contains p.id = c p := by
  rw [Bool.eq_iff_iff, mem_map_id]
  constructor
  · rintro ⟨q, hq, hqi⟩
    rw [List.mem_filter] at hq
    have hqp : q = p := List.inj_on_of_nodup_map hnd hq.1 hp hqi
    rw [← hqp]
    exact hq.2
  · intro hc
    exact ⟨p, List.mem_filter.mpr ⟨hp, hc⟩, rfl⟩

theorem ids_contains_flatMap {base : List Property}
    (hnd : (base.map (·.id)).Nodup) {p : Property} (hp : p ∈ base)
    {α : Type} (vals : List α) (m : α → Property → Bool) :
    ((vals.flatMap (fun v => base.filter (m v))).map (·.id)).contains p.id =
      vals.any (fun v => m v p) := by
  rw [Bool.eq_iff_iff, mem_map_id]
  simp only [List.any_eq_true, List.mem_flatMap, List.mem_filter]
  constructor
  · rintro ⟨q, ⟨v, hv, hq, hmq⟩, hqi⟩
    have hqp : q = p := List.inj_on_of_nodup_map hnd hq hp hqi
    exact ⟨v, hv, hqp ▸ hmq⟩
  · rintro ⟨v, hv, hm⟩
    exact ⟨p, ⟨v, hv, hp, hm⟩, rfl⟩

theorem ids_contains_dim {base : List Property}
    (hnd : (base.map (·.id)).Nodup) {p : Property} (hp : p ∈ base)
    {α : Type} (vals : List α) (m : α → Property → Bool) :
    (((if vals.length > 0 then vals.flatMap (fun v => base.filter (m v)) else base).map
        (·.id)).contains p.id) =
      (vals.isEmpty || vals.any (fun v => m v p)) := by
  cases vals with
  | nil =>
    simp only [List.length_nil, gt_iff_lt, Nat.lt_irrefl, if_false, List.isEmpty_nil,
      Bool.true_or]
    exact mem_map_id.mpr ⟨p, hp, rfl⟩
  | cons v vs =>
    simp only [List.length_cons, Nat.succ_pos, if_pos, List.isEmpty_cons, Bool.false_or]
    exact ids_contains_flatMap hnd hp (v :: vs) m

theorem intersectProperties_eq (base a1 a2 : List Property) :
    intersectProperties base a1 a2 =
      base.filter (fun p => (a1.map (·.id)).contains p.id && (a2.map (·.id)).contains p.id) := by
  unfold intersectProperties
  apply List.filter_congr
  intro p _
  exact contains_filter (a1.map (·.id)) (fun i => (a2.map (·.id)).contains i) p.id

/-! ## Concrete fixtures used in witnesses and counterexamples -/

def mkProperty (id : String) (price : Nat) (createdAt : Int) (listedBy : Principal)
    (category : Category) (configuration : Configuration) : Property :=
  { id := id, title := "t", description := "d",
    location := { city := "c", suburb := "s", area := "a", roadName := "r" },
    coordinates := { lat := 0, lng := 0 }, price := price, category := category,
    propertyType := .residential, configuration := configuration,
    furnishing := .unfurnished, status := .available, listedBy := listedBy,
    createdAt := createdAt, updatedAt := createdAt, images := [] }

def mkAgent (p : Principal) (role : Role) (active : Bool) (createdAt : Int) :
    AgentProfile :=
  { id := p, name := "n", contactInfo := "ci", role := role, active := active,
    createdAt := createdAt, updatedAt := createdAt }

def mkInquiry (id propertyId : String) (assignedAgent : Principal) (createdAt : Int) :
    Inquiry :=
  { id := id, propertyId := propertyId, customerName := "cn", contactInfo := "ci",
    source := .website, status := .new, assignedAgent := assignedAgent,
    notes := "", createdAt := createdAt, updatedAt := createdAt }

/-- The post-reset state: all four collections replaced by empty ones. -/
def freshOf (s : ActorState) : ActorState :=
  { s with agents := [], properties := [], inquiries := [], userProfiles := [] }

/-- State with one admin (0), one plain base-access user (1), and non-empty
collections; principal 2 is an active agent. -/
def sC1 : ActorState :=
  { accessControlState := { admins := [0], users := [1, 2] },
    agents := [(2, mkAgent 2 .agent true 1)],
    properties := [("p", mkProperty "p" 10 2 2 .resale .bhk1)],
    inquiries := [("i", mkInquiry "i" "p" 2 3)],
    userProfiles := [(1, { name := "u", contactInfo := "uc" })] }

/-! ## Claim theorems -/

/-- Claim C1: `resetToFreshDraft` by a caller without the admin permission
fails Unauthorized — the trap produces no new state, so all four collections
are left exactly as they were; by a caller with the admin permission it
succeeds, all four collections are empty afterwards, and every getAll-style
query by that caller returns an empty result (`getCallerUserProfile` returns
no profile). -/
theorem C1_resetToFreshDraft (s : ActorState) (caller : Principal) :
    (AccessControl.hasPermission s.accessControlState caller .admin = false →
      resetToFreshDraft s caller = .error .unauthorized) ∧
    (AccessControl.hasPermission s.accessControlState caller .admin = true →
      resetToFreshDraft s caller = .ok (freshOf s) ∧
      (freshOf s).agents = [] ∧ (freshOf s).properties = [] ∧
      (freshOf s).inquiries = [] ∧ (freshOf s).userProfiles = [] ∧
      getAllAgents (freshOf s) caller = .ok [] ∧
      getAllProperties (freshOf s) caller = .ok [] ∧
      getAllInquiries (freshOf s) caller = .ok [] ∧
      getCallerUserProfile (freshOf s) caller = .ok none) := by
  refine ⟨fun h => ?_, fun h => ?_⟩
  · simp [resetToFreshDraft, h]
  · have hadm : AccessControl.isAdmin s.accessControlState caller = true := h
    refine ⟨by simp [resetToFreshDraft, h, freshOf], rfl, rfl, rfl, rfl, ?_, ?_, ?_, ?_⟩
    · simp [getAllAgents, AccessControl.hasPermission, hadm, hasAgentRole, freshOf, mapValues]
    · simp [getAllProperties, AccessControl.hasPermission, hadm, canViewProperties, freshOf,
        mapValues]
    · simp [getAllInquiries, AccessControl.hasPermission, hadm, canManageInquiries,
        canManageAllInquiries, freshOf, mapValues]
    · simp [getCallerUserProfile, AccessControl.hasPermission, hadm, freshOf, mapGet]

/-- Witness for C1 at a concrete state: caller 1 lacks the admin permission and
is refused; admin 0 resets, and all getAll-style queries then return empty. -/
theorem C1_resetToFreshDraft_witness :
    resetToFreshDraft sC1 1 = .error .unauthorized ∧
    (resetToFreshDraft sC1 0 = .ok (freshOf sC1) ∧
      (freshOf sC1).agents = [] ∧ (freshOf sC1).properties = [] ∧
      (freshOf sC1).inquiries = [] ∧ (freshOf sC1).userProfiles = [] ∧
      getAllAgents (freshOf sC1) 0 = .ok [] ∧
      getAllProperties (freshOf sC1) 0 = .ok [] ∧
      getAllInquiries (freshOf sC1) 0 = .ok [] ∧
      getCallerUserProfile (freshOf sC1) 0 = .ok none) :=
  ⟨(C1_resetToFreshDraft sC1 1).1 rfl, (C1_resetToFreshDraft sC1 0).2 rfl⟩

/-- State where principal 7 has base access but no agent record, hence no
role-derived capability at all. -/
def sC3 : ActorState :=
  { accessControlState := { admins := [], users := [7, 9] },
    agents := [],
    properties := [],
    inquiries := [],
    userProfiles := [] }

/-- Counterexample to claim C3: caller 7 has base access but lacks every role
capability, yet `updateProperty` and `updateInquiry` on an absent id report
NotFound, not Unauthorized — the existence check runs before the
role-capability check. -/
theorem C3_counterexample :
    AccessControl.hasPermission sC3.accessControlState 7 .user = true ∧
    canManageProperties sC3 7 = false ∧
    canManageInquiries sC3 7 = false ∧
    mapGet sC3.properties "missing" = none ∧
    mapGet sC3.inquiries "missing" = none ∧
    updateProperty sC3 7 "missing" "t" "d"
      { city := "c", suburb := "s", area := "a", roadName := "r" }
      { lat := 0, lng := 0 } 1 .resale .residential .bhk1 .unfurnished .available
      [] 0 = .error .notFound ∧
    updateInquiry sC3 7 "missing" "cn" "ci" .website .new 7 "" 0 =
      .error .notFound :=
  ⟨rfl, rfl, rfl, rfl, rfl, rfl, rfl⟩

/-- Amended claim C3: the base-access check is always performed first, but in
`updateProperty` and `updateInquiry` the existence check precedes the
role-capability and ownership checks, so a caller with base access invoking
them with an absent id receives NotFound (whatever the caller's capabilities). -/
theorem C3_base_access_first (s : ActorState) (caller : Principal)
    (propertyId inquiryId title description : String) (location : Location)
    (coordinates : Coordinates) (price : Nat) (category : Category)
    (propertyType : PropertyType) (configuration : Configuration)
    (furnishing : Furnishing) (pstatus : PropertyStatus)
    (images : List ExternalBlob) (customerName contactInfo : String)
    (source : InquirySource) (istatus : InquiryStatus)
    (assignedAgent : Principal) (notes : String) (now : Int) :
    (AccessControl.hasPermission s.accessControlState caller .user = false →
      updateProperty s caller propertyId title description location coordinates
          price category propertyType configuration furnishing pstatus images now =
        .error .unauthorized ∧
      updateInquiry s caller inquiryId customerName contactInfo source istatus
          assignedAgent notes now = .error .unauthorized) ∧
    (AccessControl.hasPermission s.accessControlState caller .user = true →
      mapGet s.properties propertyId = none →
      updateProperty s caller propertyId title description location coordinates
          price category propertyType configuration furnishing pstatus images now =
        .error .notFound) ∧
    (AccessControl.hasPermission s.accessControlState caller .user = true →
      mapGet s.inquiries inquiryId = none →
      updateInquiry s caller inquiryId customerName contactInfo source istatus
          assignedAgent notes now = .error .notFound) := by
  refine ⟨fun h => ⟨?_, ?_⟩, fun h hnone => ?_, fun h hnone => ?_⟩
  · simp [updateProperty, h]
  · simp [updateInquiry, h]
  · simp [updateProperty, h, hnone]
  · simp [updateInquiry, h, hnone]

/-- Witness for the amended C3 at a concrete state. -/
theorem C3_base_access_first_witness :
    updateProperty sC3 99 "missing" "t" "d"
      { city := "c", suburb := "s", area := "a", roadName := "r" }
      { lat := 0, lng := 0 } 1 .resale .residential .bhk1 .unfurnished .available
      [] 0 = .error .unauthorized ∧
    updateProperty sC3 9 "missing" "t" "d"
      { city := "c", suburb := "s", area := "a", roadName := "r" }
      { lat := 0, lng := 0 } 1 .resale .residential .bhk1 .unfurnished .available
      [] 0 = .error .notFound ∧
    updateInquiry sC3 9 "missing" "cn" "ci" .website .new 9 "" 0 =
      .error .notFound :=
  ⟨((C3_base_access_first sC3 99 "missing" "missing" "t" "d"
      { city := "c", suburb := "s", area := "a", roadName := "r" }
      { lat := 0, lng := 0 } 1 .resale .residential .bhk1 .unfurnished .available
      [] "cn" "ci" .website .new 99 "" 0).1 rfl).1,
   (C3_base_access_first sC3 9 "missing" "missing" "t" "d"
      { city := "c", suburb := "s", area := "a", roadName := "r" }
      { lat := 0, lng := 0 } 1 .resale .residential .bhk1 .unfurnished .available
      [] "cn" "ci" .website .new 9 "" 0).2.1 rfl rfl,
   (C3_base_access_first sC3 9 "missing" "missing" "t" "d"
      { city := "c", suburb := "s", area := "a", roadName := "r" }
      { lat := 0, lng := 0 } 1 .resale .residential .bhk1 .unfurnished .available
      [] "cn" "ci" .website .new 9 "" 0).2.2 rfl rfl⟩

/-- State for C8: principal 0 is an AccessControl admin, principal 5 is a
deactivated agent, and property "p" exists. -/
def sC8 : ActorState :=
  { accessControlState := { admins := [0], users := [0] },
    agents := [(5, mkAgent 5 .agent false 1)],
    properties := [("p", mkProperty "p" 10 2 5 .resale .bhk1)],
    inquiries := [],
    userProfiles := [] }

/-- Claim C8: for every caller that passes the base-access and
inquiry-capability checks (administrators included) and names an existing
property, `addInquiry` assigning to an agent record whose active flag is false
fails with InvalidReference — the trap aborts the call, so no inquiry is added
to the store. -/
theorem C8_addInquiry_inactive_agent (s : ActorState) (caller : Principal)
    (propertyId customerName contactInfo : String) (source : InquirySource)
    (assignedAgent : Principal) (notes : String) (now : Int)
    (pr : Property) (a : AgentProfile)
    (hperm : AccessControl.hasPermission s.accessControlState caller .user = true)
    (hrole : canManageInquiries s caller = true)
    (hprop : mapGet s.properties propertyId = some pr)
    (hagent : mapGet s.agents assignedAgent = some a)
    (hinactive : a.active = false) :
    addInquiry s caller propertyId customerName contactInfo source assignedAgent
      notes now = .error .invalidReference := by
  have hval : isValidActiveAgent s assignedAgent = false := by
    simp [isValidActiveAgent, hagent, hinactive]
  simp [addInquiry, hperm, hrole, hprop, hval]

/-- Witness for C8: an AccessControl administrator assigning to deactivated
agent 5 is still refused with InvalidReference. -/
theorem C8_addInquiry_inactive_agent_witness :
    addInquiry sC8 0 "p" "cn" "ci" .website 5 "" 7 = .error .invalidReference :=
  C8_addInquiry_inactive_agent sC8 0 "p" "cn" "ci" .website 5 "" 7
    (mkProperty "p" 10 2 5 .resale .bhk1) (mkAgent 5 .agent false 1)
    rfl rfl rfl rfl rfl

/-- State for C9: two distinct active non-admin agents 1 and 2; property "p"
is listed by agent 1 and was created at time 3. -/
def sC9 : ActorState :=
  { accessControlState := { admins := [], users := [1, 2] },
    agents := [(1, mkAgent 1 .agent true 1), (2, mkAgent 2 .agent true 1)],
    properties := [("p", mkProperty "p" 10 3 1 .resale .bhk1)],
    inquiries := [],
    userProfiles := [] }

/-- Claim C9: a non-admin agent A updating a property listed by a different
agent fails Unauthorized (the trap leaves the property unchanged); when the
ownership check passes (owner or admin), the update succeeds and the stored
property keeps the id, `listedBy` and `createdAt` of the existing record. -/
theorem C9_updateProperty_ownership (s : ActorState) (A : Principal)
    (propertyId title description : String) (location : Location)
    (coordinates : Coordinates) (price : Nat) (category : Category)
    (propertyType : PropertyType) (configuration : Configuration)
    (furnishing : Furnishing) (status : PropertyStatus)
    (images : List ExternalBlob) (now : Int) (ex : Property) :
    (AccessControl.hasPermission s.accessControlState A .user = true →
      mapGet s.properties propertyId = some ex →
      canManageProperties s A = true →
      AccessControl.isAdmin s.accessControlState A = false →
      ex.listedBy ≠ A →
      updateProperty s A propertyId title description location coordinates price
        category propertyType configuration furnishing status images now =
        .error .unauthorized) ∧
    (AccessControl.hasPermission s.accessControlState A .user = true →
      mapGet s.properties propertyId = some ex →
      canManageProperties s A = true →
      (ex.listedBy = A ∨ AccessControl.isAdmin s.accessControlState A = true) →
      updateProperty s A propertyId title description location coordinates price
        category propertyType configuration furnishing status images now =
        .ok { s with properties := (mapAdd s.properties propertyId
          { id := propertyId, title := title, description := description,
            location := location, coordinates := coordinates, price := price,
            category := category, propertyType := propertyType,
            configuration := configuration, furnishing := furnishing,
            status := status, listedBy := ex.listedBy,
            createdAt := ex.createdAt, updatedAt := now, images := images }) } ∧
      mapGet (mapAdd s.properties propertyId
          { id := propertyId, title := title, description := description,
            location := location, coordinates := coordinates, price := price,
            category := category, propertyType := propertyType,
            configuration := configuration, furnishing := furnishing,
            status := status, listedBy := ex.listedBy,
            createdAt := ex.createdAt, updatedAt := now, images := images })
        propertyId =
        some { id := propertyId, title := title, description := description,
               location := location, coordinates := coordinates, price := price,
               category := category, propertyType := propertyType,
               configuration := configuration, furnishing := furnishing,
               status := status, listedBy := ex.listedBy,
               createdAt := ex.createdAt, updatedAt := now, images := images }) := by
  refine ⟨fun h1 h2 h3 h4 h5 => ?_, fun h1 h2 h3 h4 => ⟨?_, mapGet_mapAdd_self _ _ _⟩⟩
  · have hb : (ex.listedBy != A && !(AccessControl.isAdmin s.accessControlState A)) = true := by
      simp [bne_iff_ne, h4, h5]
    simp [updateProperty, h1, h2, h3, hb]
  · have hb : (ex.listedBy != A && !(AccessControl.isAdmin s.accessControlState A)) = false := by
      rcases h4 with h | h
      · simp [bne_iff_ne, h]
      · simp [h]
    simp [updateProperty, h1, h2, h3, hb]

/-- Witness for C9: agent 2 cannot update agent 1's property "p"; agent 1 can,
and the stored record keeps id "p", listedBy 1 and createdAt 3. -/
theorem C9_updateProperty_ownership_witness :
    updateProperty sC9 2 "p" "t2" "d2"
      { city := "c2", suburb := "s2", area := "a2", roadName := "r2" }
      { lat := 1, lng := 2 } 11 .rental .residential .bhk2 .unfurnished .sold
      [] 9 = .error .unauthorized ∧
    updateProperty sC9 1 "p" "t2" "d2"
      { city := "c2", suburb := "s2", area := "a2", roadName := "r2" }
      { lat := 1, lng := 2 } 11 .rental .residential .bhk2 .unfurnished .sold
      [] 9 =
      .ok { sC9 with properties := (mapAdd sC9.properties "p"
        { id := "p", title := "t2", description := "d2",
          location := { city := "c2", suburb := "s2", area := "a2", roadName := "r2" },
          coordinates := { lat := 1, lng := 2 }, price := 11, category := .rental,
          propertyType := .residential, configuration := .bhk2,
          furnishing := .unfurnished, status := .sold, listedBy := 1,
          createdAt := 3, updatedAt := 9, images := [] }) } :=
  ⟨(C9_updateProperty_ownership sC9 2 "p" "t2" "d2"
      { city := "c2", suburb := "s2", area := "a2", roadName := "r2" }
      { lat := 1, lng := 2 } 11 .rental .residential .bhk2 .unfurnished .sold
      [] 9 (mkProperty "p" 10 3 1 .resale .bhk1)).1 rfl rfl rfl rfl (by decide),
   ((C9_updateProperty_ownership sC9 1 "p" "t2" "d2"
      { city := "c2", suburb := "s2", area := "a2", roadName := "r2" }
      { lat := 1, lng := 2 } 11 .rental .residential .bhk2 .unfurnished .sold
      [] 9 (mkProperty "p" 10 3 1 .resale .bhk1)).2 rfl rfl rfl (Or.inl rfl)).1⟩

/-- State for C10: admin 0; principal 5 already has a deactivated agent record
created at time 1. -/
def sC10 : ActorState :=
  { accessControlState := { admins := [0], users := [5] },
    agents := [(5, mkAgent 5 .agent false 1)],
    properties := [],
    inquiries := [],
    userProfiles := [] }

/-- Claim C10: for an admin caller, `addAgent` builds a completely fresh
record (active, createdAt = current time) and stores it under the target
principal unconditionally — whatever record that principal had before is
silently overwritten, so a previously deactivated agent is reactivated and its
original creation timestamp discarded. -/
theorem C10_addAgent_overwrites (s : ActorState) (caller agentPrincipal : Principal)
    (name contactInfo : String) (role : Role) (now : Int)
    (h : AccessControl.hasPermission s.accessControlState caller .admin = true) :
    addAgent s caller agentPrincipal name contactInfo role now =
      .ok { s with
            agents := (mapAdd s.agents agentPrincipal
              { id := agentPrincipal, name := name, contactInfo := contactInfo,
                role := role, active := true, createdAt := now, updatedAt := now }),
            accessControlState :=
              AccessControl.assignRole s.accessControlState caller agentPrincipal .user } ∧
    mapGet (mapAdd s.agents agentPrincipal
        { id := agentPrincipal, name := name, contactInfo := contactInfo,
          role := role, active := true, createdAt := now, updatedAt := now })
      agentPrincipal =
      some { id := agentPrincipal, name := name, contactInfo := contactInfo,
             role := role, active := true, createdAt := now, updatedAt := now } :=
  ⟨by simp [addAgent, h], mapGet_mapAdd_self _ _ _⟩

/-- Witness for C10: principal 5 was a deactivated agent created at time 1;
after `addAgent` at time 9 its stored record is active with createdAt 9. -/
theorem C10_addAgent_overwrites_witness :
    mapGet sC10.agents 5 = some (mkAgent 5 .agent false 1) ∧
    addAgent sC10 0 5 "n2" "c2" .agent 9 =
      .ok { sC10 with
            agents := (mapAdd sC10.agents 5
              { id := 5, name := "n2", contactInfo := "c2", role := .agent,
                active := true, createdAt := 9, updatedAt := 9 }),
            accessControlState :=
              AccessControl.assignRole sC10.accessControlState 0 5 .user } ∧
    mapGet (mapAdd sC10.agents 5
        { id := 5, name := "n2", contactInfo := "c2", role := .agent,
          active := true, createdAt := 9, updatedAt := 9 }) 5 =
      some { id := 5, name := "n2", contactInfo := "c2", role := .agent,
             active := true, createdAt := 9, updatedAt := 9 } :=
  ⟨rfl, (C10_addAgent_overwrites sC10 0 5 "n2" "c2" .agent 9 rfl).1,
   (C10_addAgent_overwrites sC10 0 5 "n2" "c2" .agent 9 rfl).2⟩

/-- Stable merge sort on a `createdAt`-style integer key yields a list that is
pairwise non-decreasing in that key. -/
theorem pairwise_key_mergeSort {α : Type} (key : α → Int) (l : List α) :
    List.Pairwise (fun a b => key a ≤ key b)
      (l.mergeSort (fun a b => decide (key a ≤ key b))) := by
  have h := @List.sorted_mergeSort α (fun a b => decide (key a ≤ key b))
    (fun a b c hab hbc => by
      simp only [decide_eq_true_eq] at hab hbc ⊢
      omega)
    (fun a b => by
      simp only [Bool.or_eq_true, decide_eq_true_eq]
      omega) l
  exact h.imp (fun hab => of_decide_eq_true hab)

/-- Property "a" enumerated first but created later than property "b". -/
def pC2a : Property := mkProperty "a" 10 10 1 .resale .bhk1

def pC2b : Property := mkProperty "b" 10 5 1 .resale .bhk1

/-- State whose map enumeration order ("a" before "b") disagrees with
createdAt order (10 before 5); caller 1 is an active agent. -/
def sC2 : ActorState :=
  { accessControlState := { admins := [], users := [1] },
    agents := [(1, mkAgent 1 .agent true 1)],
    properties := [("a", pC2a), ("b", pC2b)],
    inquiries := [],
    userProfiles := [] }

/-- Counterexample to claim C2: `filterPropertiesByConfiguration` returns its
matches in map enumeration order without sorting, so on a store whose
enumeration order disagrees with createdAt order the result is not sorted in
ascending createdAt order. -/
theorem C2_counterexample :
    filterPropertiesByConfiguration sC2 1 .bhk1 = .ok [pC2a, pC2b] ∧
    pC2a.createdAt = 10 ∧ pC2b.createdAt = 5 ∧
    ¬ List.Pairwise (fun p1 p2 => p1.createdAt ≤ p2.createdAt) [pC2a, pC2b] := by
  refine ⟨rfl, rfl, rfl, ?_⟩
  decide

/-- Amended claim C2: the getAll-style reads (`getAllProperties`,
`getPropertiesByCategory`, `getAllAgents`, `getAllInquiries`) sort their
result in ascending `createdAt` order (a stable merge sort over the map's
enumeration, so ties keep enumeration order); the plain filter and search
endpoints (`filterPropertiesByConfiguration`, `searchAndFilterProperties`)
return their matches in the map's enumeration order without re-sorting — the
result is a sublist of `values()`, not a createdAt-sorted list. -/
theorem C2_enumeration_order (s : ActorState) (caller : Principal)
    (category : Category) (configuration : Configuration)
    (criteria : SearchCriteria) :
    (∀ l, getAllProperties s caller = .ok l →
      List.Pairwise (fun p1 p2 => p1.createdAt ≤ p2.createdAt) l ∧
      l.Perm (mapValues s.properties)) ∧
    (∀ l, getPropertiesByCategory s caller category = .ok l →
      List.Pairwise (fun p1 p2 => p1.createdAt ≤ p2.createdAt) l) ∧
    (∀ l, getAllAgents s caller = .ok l →
      List.Pairwise (fun a1 a2 => a1.createdAt ≤ a2.createdAt) l) ∧
    (∀ l, getAllInquiries s caller = .ok l →
      List.Pairwise (fun i1 i2 => i1.createdAt ≤ i2.createdAt) l) ∧
    (∀ l, filterPropertiesByConfiguration s caller configuration = .ok l →
      l.Sublist (mapValues s.properties)) ∧
    (∀ l, searchAndFilterProperties s caller criteria = .ok l →
      l.Sublist (mapValues s.properties)) := by
  refine ⟨fun l hok => ?_, fun l hok => ?_, fun l hok => ?_, fun l hok => ?_,
    fun l hok => ?_, fun l hok => ?_⟩
  · unfold getAllProperties at hok
    split at hok
    · simp at hok
    · split at hok
      · simp at hok
      · have h := Except.ok.inj hok
        subst h
        exact ⟨pairwise_key_mergeSort (fun p : Property => p.createdAt) _,
          List.mergeSort_perm _ _⟩
  · unfold getPropertiesByCategory at hok
    split at hok
    · simp at hok
    · split at hok
      · simp at hok
      · have h := Except.ok.inj hok
        subst h
        exact pairwise_key_mergeSort (fun p : Property => p.createdAt) _
  · unfold getAllAgents at hok
    split at hok
    · simp at hok
    · split at hok
      · simp at hok
      · have h := Except.ok.inj hok
        subst h
        exact pairwise_key_mergeSort (fun a : AgentProfile => a.createdAt) _
  · unfold getAllInquiries at hok
    split at hok
    · simp at hok
    · split at hok
      · simp at hok
      · split at hok
        · have h := Except.ok.inj hok
          subst h
          exact pairwise_key_mergeSort (fun i : Inquiry => i.createdAt) _
        · have h := Except.ok.inj hok
          subst h
          exact pairwise_key_mergeSort (fun i : Inquiry => i.createdAt) _
  · unfold filterPropertiesByConfiguration at hok
    split at hok
    · simp at hok
    · split at hok
      · simp at hok
      · have h := Except.ok.inj hok
        subst h
        exact List.filter_sublist _
  · unfold searchAndFilterProperties at hok
    split at hok
    · simp at hok
    · split at hok
      · simp at hok
      · have h := Except.ok.inj hok
        subst h
        exact List.filter_sublist _

/-- Single-property state for the C2 witness. -/
def sC2w : ActorState :=
  { accessControlState := { admins := [], users := [1] },
    agents := [(1, mkAgent 1 .agent true 1)],
    properties := [("b", pC2b)],
    inquiries := [],
    userProfiles := [] }

/-- Empty search criteria (all fourteen fields absent). -/
def emptyCriteria : SearchCriteria :=
  { city := none, suburb := none, area := none, roadName := none,
    category := none, propertyType := none, configuration := none,
    furnishing := none, minPrice := none, maxPrice := none, status := none,
    lat := none, lng := none, radius := none }

/-- Witness for the amended C2 at a concrete single-property state. -/
theorem C2_enumeration_order_witness :
    List.Pairwise (fun p1 p2 => p1.createdAt ≤ p2.createdAt)
      ((mapValues sC2w.properties).mergeSort
        (fun p1 p2 => decide (p1.createdAt ≤ p2.createdAt))) ∧
    ((mapValues sC2w.properties).filter
      (fun p => p.configuration == Configuration.bhk1)).Sublist
      (mapValues sC2w.properties) :=
  ⟨((C2_enumeration_order sC2w 1 .resale .bhk1 emptyCriteria).1 _ rfl).1,
   (C2_enumeration_order sC2w 1 .resale .bhk1 emptyCriteria).2.2.2.2.1 _ rfl⟩

/-- Scoped properties for C5, enumerated with price 5 first, price 2 second. -/
def pC5a : Property := mkProperty "b" 5 1 1 .resale .bhk1

def pC5b : Property := mkProperty "c" 2 2 1 .resale .bhk1

/-- State for C5: admin caller 0; two properties with prices 5 and 2. -/
def sC5 : ActorState :=
  { accessControlState := { admins := [0], users := [0] },
    agents := [],
    properties := [("b", pC5a), ("c", pC5b)],
    inquiries := [],
    userProfiles := [] }

/-- Claim C5 is violated by the code: `getCombinedAnalytics` sets both
`priceRange.minPrice` and `priceRange.maxPrice` to the price of the *first*
scoped property (`relevantProperties[0].price`), not the least and greatest
prices.  At this state the least price is 2 and the greatest is 5, yet both
bounds come back as 5.  The integer-division average (7 / 2 = 3) is correct. -/
theorem C5_priceRange_first_element :
    getCombinedAnalytics sC5 0 = .ok (combinedOf [pC5a, pC5b]) ∧
    (combinedOf [pC5a, pC5b]).pricingHeatmap =
      [{ region := "Mumbai", regionType := .city, averagePrice := some 3,
         priceRange := { minPrice := some 5, maxPrice := some 5 } }] ∧
    (combinedOf [pC5a, pC5b]).regionalDistribution.map (·.priceRange) =
      [{ minPrice := some 5, maxPrice := some 5 }] ∧
    ((mapValues sC5.properties).map (·.price)).min? = some 2 ∧
    ((mapValues sC5.properties).map (·.price)).max? = some 5 :=
  ⟨rfl, rfl, rfl, rfl, rfl⟩

/-- State for C6: admin 0; caller 2 is an active non-admin agent with zero
listed properties (property "p" is listed by principal 1). -/
def sC6 : ActorState :=
  { accessControlState := { admins := [0], users := [1, 2] },
    agents := [(2, mkAgent 2 .agent true 1)],
    properties := [("p", mkProperty "p" 10 2 1 .resale .bhk1)],
    inquiries := [],
    userProfiles := [] }

/-- Claim C6: for a caller allowed to access analytics, an administrator's
analytics aggregate over all properties while any other caller's aggregate
only over properties with `listedBy` equal to the caller; a non-admin caller
with zero listed properties gets an absent average price and every
distribution count equal to 0 (in the combined report and in
`getConfigurationDistribution`). -/
theorem C6_analytics_scope (s : ActorState) (caller : Principal)
    (hperm : AccessControl.hasPermission s.accessControlState caller .user = true)
    (hacc : canAccessAnalytics s caller = true) :
    (AccessControl.isAdmin s.accessControlState caller = true →
      relevantPropertiesFor s caller = mapValues s.properties ∧
      getCombinedAnalytics s caller = .ok (combinedOf (mapValues s.properties))) ∧
    (AccessControl.isAdmin s.accessControlState caller = false →
      relevantPropertiesFor s caller =
        (mapValues s.properties).filter (fun p => p.listedBy == caller) ∧
      getCombinedAnalytics s caller =
        .ok (combinedOf ((mapValues s.properties).filter (fun p => p.listedBy == caller)))) ∧
    (AccessControl.isAdmin s.accessControlState caller = false →
      (mapValues s.properties).filter (fun p => p.listedBy == caller) = [] →
      getCombinedAnalytics s caller = .ok (combinedOf []) ∧
      getConfigurationDistribution s caller =
        .ok [{ region := "Mumbai", regionType := .city, rk1Count := 0,
               bhk1Count := 0, bhk1_5Count := 0, bhk2Count := 0, bhk2_5Count := 0,
               bhk3Count := 0, bhk3_5Count := 0, bhk4Count := 0, bhk5Count := 0,
               jodiFlatCount := 0, duplexCount := 0, penthouseCount := 0,
               bungalowCount := 0, independentHouseCount := 0 }] ∧
      (combinedOf []).regionalDistribution =
        [{ region := "Mumbai", regionType := .city, propertyCount := 0,
           categoryDistribution := { resale := 0, rental := 0, underConstruction := 0 },
           propertyTypeDistribution := { residential := 0, commercial := 0, industrial := 0 },
           configurationDistribution :=
             { rk1 := 0, bhk1 := 0, bhk1_5 := 0, bhk2 := 0, bhk2_5 := 0, bhk3 := 0,
               bhk3_5 := 0, bhk4 := 0, bhk5 := 0, jodiFlat := 0, duplex := 0,
               penthouse := 0, bungalow := 0, independentHouse := 0 },
           furnishingDistribution := { unfurnished := 0, semiFurnished := 0, furnished := 0 },
           averagePrice := none,
           priceRange := { minPrice := none, maxPrice := none } }] ∧
      (combinedOf []).pricingHeatmap =
        [{ region := "Mumbai", regionType := .city, averagePrice := none,
           priceRange := { minPrice := none, maxPrice := none } }] ∧
      (combinedOf []).propertyDensity =
        [{ region := "Mumbai", regionType := .city, propertyCount := 0 }] ∧
      (combinedOf []).categoryDistribution =
        [{ region := "Mumbai", regionType := .city, resaleCount := 0,
           rentalCount := 0, underConstructionCount := 0 }] ∧
      (combinedOf []).propertyTypeDistribution =
        [{ region := "Mumbai", regionType := .city, residentialCount := 0,
           commercialCount := 0, industrialCount := 0 }] ∧
      (combinedOf []).configurationDistribution =
        [{ region := "Mumbai", regionType := .city, rk1Count := 0,
           bhk1Count := 0, bhk1_5Count := 0, bhk2Count := 0, bhk2_5Count := 0,
           bhk3Count := 0, bhk3_5Count := 0, bhk4Count := 0, bhk5Count := 0,
           jodiFlatCount := 0, duplexCount := 0, penthouseCount := 0,
           bungalowCount := 0, independentHouseCount := 0 }] ∧
      (combinedOf []).furnishingDistribution =
        [{ region := "Mumbai", regionType := .city, unfurnishedCount := 0,
           semiFurnishedCount := 0, furnishedCount := 0 }]) := by
  refine ⟨fun h => ⟨?_, ?_⟩, fun h => ⟨?_, ?_⟩, fun h hz => ?_⟩
  · simp [relevantPropertiesFor, h]
  · simp [getCombinedAnalytics, hperm, hacc, relevantPropertiesFor, h]
  · simp [relevantPropertiesFor, h]
  · simp [getCombinedAnalytics, hperm, hacc, relevantPropertiesFor, h]
  · refine ⟨by simp [getCombinedAnalytics, hperm, hacc, relevantPropertiesFor, h, hz],
      by simp [getConfigurationDistribution, hperm, hacc, relevantPropertiesFor, h, hz],
      rfl, rfl, rfl, rfl, rfl, rfl, rfl⟩

/-- Witness for C6: non-admin agent 2 with zero listed properties receives the
all-zero, absent-average analytics. -/
theorem C6_analytics_scope_witness :
    getCombinedAnalytics sC6 2 = .ok (combinedOf []) ∧
    getConfigurationDistribution sC6 2 =
      .ok [{ region := "Mumbai", regionType := .city, rk1Count := 0,
             bhk1Count := 0, bhk1_5Count := 0, bhk2Count := 0, bhk2_5Count := 0,
             bhk3Count := 0, bhk3_5Count := 0, bhk4Count := 0, bhk5Count := 0,
             jodiFlatCount := 0, duplexCount := 0, penthouseCount := 0,
             bungalowCount := 0, independentHouseCount := 0 }] :=
  ⟨((C6_analytics_scope sC6 2 rfl rfl).2.2 rfl rfl).1,
   ((C6_analytics_scope sC6 2 rfl rfl).2.2 rfl rfl).2.1⟩

/-- Claim C7: with lat, lng and radius all present, the radius predicate of
`searchAndFilterProperties` holds exactly when
`(lat - p.lat)² + (lng - p.lng)² ≤ radius²` (coordinates modelled as exact
rationals); hence a property exactly at the filter center matches with
radius 0, and a property at squared distance strictly greater than `radius²`
does not match. -/
theorem C7_radius_predicate (criteria : SearchCriteria) (p : Property)
    (la ln r : Rat) (hla : criteria.lat = some la) (hln : criteria.lng = some ln)
    (hr : criteria.radius = some r) :
    (radiusMatch criteria p = true ↔
      (la - p.coordinates.lat) ^ 2 + (ln - p.coordinates.lng) ^ 2 ≤ r ^ 2) ∧
    (p.coordinates.lat = la → p.coordinates.lng = ln → r = 0 →
      radiusMatch criteria p = true) ∧
    ((la - p.coordinates.lat) ^ 2 + (ln - p.coordinates.lng) ^ 2 > r ^ 2 →
      radiusMatch criteria p = false) := by
  have hiff : radiusMatch criteria p = true ↔
      (la - p.coordinates.lat) ^ 2 + (ln - p.coordinates.lng) ^ 2 ≤ r ^ 2 := by
    simp [radiusMatch, hla, hln, hr, pow_two]
  refine ⟨hiff, fun h1 h2 h3 => ?_, fun h => ?_⟩
  · apply hiff.mpr
    rw [h1, h2, h3]
    simp
  · have hn : ¬ ((la - p.coordinates.lat) ^ 2 + (ln - p.coordinates.lng) ^ 2 ≤ r ^ 2) :=
      not_le.mpr h
    cases hb : radiusMatch criteria p
    · rfl
    · exact absurd (hiff.mp hb) hn

/-- Search criteria for the C7 witness: center (0, 0) with radius 0. -/
def critC7 : SearchCriteria :=
  { emptyCriteria with lat := some 0, lng := some 0, radius := some 0 }

/-- Witness for C7: the property fixture sits exactly at (0, 0), so it matches
the radius-0 filter centered there. -/
theorem C7_radius_predicate_witness :
    radiusMatch critC7 (mkProperty "p" 1 1 1 .resale .bhk1) = true :=
  (C7_radius_predicate critC7 (mkProperty "p" 1 1 1 .resale .bhk1) 0 0 0
    rfl rfl rfl).2.1 rfl rfl rfl

/-- On a store with pairwise-distinct property ids, the advanced filter is the
base enumeration filtered by the dimension-wise predicate `advMatches`. -/
theorem advancedFilter_eq (s : ActorState) (caller : Principal)
    (f : AdvancedFilter)
    (hnd : ((mapValues s.properties).map (·.id)).Nodup)
    (h1 : AccessControl.hasPermission s.accessControlState caller .user = true)
    (h2 : canViewProperties s caller = true) :
    advancedFilterProperties s caller f =
      .ok ((mapValues s.properties).filter (advMatches f)) := by
  unfold advancedFilterProperties
  simp only [h1, h2, Bool.not_true, Bool.false_eq_true, if_false,
    intersectProperties_eq]
  congr 1
  apply List.filter_congr
  intro p hp
  simp only [ids_contains_filter hnd hp, ids_contains_dim hnd hp]
  rfl

/-- Claim C4: a property appears in the result of `advancedFilterProperties`
iff, for each of the eight dimensions whose value set is non-empty, it
satisfies at least one value of that set (OR within a dimension, AND across
dimensions); with all eight dimensions empty the result is the full property
collection, order-preserved, and with `categories = [resale, rental]` and all
other dimensions empty the result is exactly the properties whose category is
resale or rental, in enumeration order.  (The store is assumed to have
pairwise-distinct property ids, as the id-keyed map guarantees.) -/
theorem C4_advancedFilterProperties (s : ActorState) (caller : Principal)
    (f : AdvancedFilter) (l : List Property)
    (hnd : ((mapValues s.properties).map (·.id)).Nodup)
    (hok : advancedFilterProperties s caller f = .ok l) :
    (∀ p, p ∈ l ↔ p ∈ mapValues s.properties ∧
      ((f.locations = [] ∨ ∃ loc ∈ f.locations, matchesLocation loc p = true) ∧
       (f.categories = [] ∨ ∃ c ∈ f.categories, p.category = c) ∧
       (f.propertyTypes = [] ∨ ∃ t ∈ f.propertyTypes, p.propertyType = t) ∧
       (f.configurations = [] ∨ ∃ c ∈ f.configurations, p.configuration = c) ∧
       (f.furnishings = [] ∨ ∃ fu ∈ f.furnishings, p.furnishing = fu) ∧
       (f.priceRanges = [] ∨ ∃ pr ∈ f.priceRanges, matchesPriceRange pr p = true) ∧
       (f.statuses = [] ∨ ∃ st ∈ f.statuses, p.status = st) ∧
       (f.coordinateFilters = [] ∨
         ∃ cf ∈ f.coordinateFilters, matchesCoordFilter cf p = true))) ∧
    (f = { locations := [], categories := [], propertyTypes := [],
           configurations := [], furnishings := [], priceRanges := [],
           statuses := [], coordinateFilters := [] } →
      l = mapValues s.properties) ∧
    (f = { locations := [], categories := [Category.resale, Category.rental],
           propertyTypes := [], configurations := [], furnishings := [],
           priceRanges := [], statuses := [], coordinateFilters := [] } →
      l = (mapValues s.properties).filter
        (fun p => p.category == Category.resale || p.category == Category.rental)) := by
  have hl : l = (mapValues s.properties).filter (advMatches f) := by
    by_cases h1 : AccessControl.hasPermission s.accessControlState caller .user = true
    · by_cases h2 : canViewProperties s caller = true
      · have heq := advancedFilter_eq s caller f hnd h1 h2
        rw [heq] at hok
        exact (Except.ok.inj hok).symm
      · have h2f : canViewProperties s caller = false := by
          cases hcv : canViewProperties s caller
          · rfl
          · exact absurd hcv h2
        unfold advancedFilterProperties at hok
        simp [h1, h2f] at hok
    · have h1f : AccessControl.hasPermission s.accessControlState caller .user = false := by
        cases hcv : AccessControl.hasPermission s.accessControlState caller .user
        · rfl
        · exact absurd hcv h1
      unfold advancedFilterProperties at hok
      simp [h1f] at hok
  subst hl
  refine ⟨fun p => ?_, fun hf => ?_, fun hf => ?_⟩
  · rw [List.mem_filter]
    refine and_congr_right fun _ => ?_
    simp [advMatches, List.isEmpty_iff, List.any_eq_true, and_assoc]
  · subst hf
    exact List.filter_eq_self.mpr (fun p _ => rfl)
  · subst hf
    apply List.filter_congr
    intro p hp
    simp only [advMatches]
    cases p.category <;> rfl

/-- Properties for the C4 witness: one resale, one under construction. -/
def pC4r : Property := mkProperty "r" 1 1 1 .resale .bhk1

def pC4u : Property := mkProperty "u" 1 2 1 .underConstruction .bhk1

/-- State for the C4 witness: caller 1 is an active agent. -/
def sC4 : ActorState :=
  { accessControlState := { admins := [], users := [1] },
    agents := [(1, mkAgent 1 .agent true 1)],
    properties := [("r", pC4r), ("u", pC4u)],
    inquiries := [],
    userProfiles := [] }

/-- Advanced filter selecting resale-or-rental, all other dimensions empty. -/
def fC4 : AdvancedFilter :=
  { locations := [], categories := [.resale, .rental], propertyTypes := [],
    configurations := [], furnishings := [], priceRanges := [], statuses := [],
    coordinateFilters := [] }

/-- Witness for C4: on a concrete two-property store, the resale-or-rental
filter returns exactly the resale/rental properties in enumeration order. -/
theorem C4_advancedFilterProperties_witness :
    advancedFilterProperties sC4 1 fC4 =
      .ok ((mapValues sC4.properties).filter
        (fun p => p.category == Category.resale || p.category == Category.rental)) := by
  have h := (C4_advancedFilterProperties sC4 1 fC4 _ (by decide) rfl).2.2 rfl
  rw [← h]
  rfl

end RealEstate
